import Mathlib

/-!
# Expense report mailer (`pocketbase/hooks/send-expense-report.go`)

A shallow embedding of the handler registered for `POST /api/send-expense-report`.

The handler is straight-line code around five calls into its surroundings: binding the
request body, `json.Marshal`, `os.Getenv`, `http.NewRequest` and `client.Do`.  They are made
explicit:

* the result of `c.Bind(&req)` is the handler's input (`Except String EmailRequest`);
* `json.Marshal` and the validation done by `http.NewRequest` are functions of the Go
  standard library, taken as parameters (`Lib`), each with its error result;
* the process environment and the email provider form the `World`;
* every `client.Do` the handler performs is recorded, in order, in `Outcome.calls`.

The source names two variables `req` (the `EmailRequest` and the `*http.Request`); the second
one is called `httpReq` here.
-/

namespace SendExpenseReport

/-! ## Data model -/

/-- The Go struct `EmailRequest` (source lines 17-22). -/
structure EmailRequest where
  Name : String
  Email : String
  PPS : String
  PDFData : String

/-- The Go values that occur under `interface{}` in the handler's map literals. -/
inductive GoValue where
  | str (s : String)
  | bool (b : Bool)
  | strings (xs : List String)
  | maps (xs : List (List (String × GoValue)))

/-- A Go `map[string]interface{}` literal, as its key/value pairs in source order. -/
abbrev GoMap := List (String × GoValue)

/-- Indexing `m[k]` of a Go map. -/
def mapGet (m : GoMap) (k : String) : Option GoValue :=
  List.lookup k m

/-- The keys of a Go map literal. -/
def mapKeys (m : GoMap) : List String :=
  m.map Prod.fst

/-- A Go `http.Header` restricted to single-valued entries. -/
abbrev Header := List (String × String)

/-- The method `Header.Set`: replaces the entry of `key`. -/
def Header.Set (h : Header) (key value : String) : Header :=
  h.filter (fun kv => kv.1 != key) ++ [(key, value)]

/-- The method `Header.Get`. -/
def Header.Get (h : Header) (key : String) : Option String :=
  List.lookup key h

/-- The parts of a Go `*http.Request` the handler sets. -/
structure HttpRequest where
  Method : String
  URL : String
  Header : Header
  Body : String
  deriving DecidableEq

/-- The parts of a Go `*http.Response` the handler could read. -/
structure HttpResponse where
  StatusCode : Nat
  Body : String
  deriving DecidableEq

/-- What the handler returns to the framework: an `*apis.ApiError` (status, message and the
attached `data`, `none` for `nil`) or the result of `c.JSON(code, body)`. -/
inductive Response where
  | apiError (Code : Nat) (Message : String) (Data : Option String)
  | json (Code : Nat) (body : GoMap)

/-- HTTP status of a response. -/
def Response.status : Response → Nat
  | .apiError code _ _ => code
  | .json code _ => code

/-- The constant `http.StatusOK`. -/
def StatusOK : Nat := 200

/-- The constructor `apis.NewBadRequestError(message, data)`: status 400. -/
def NewBadRequestError (message : String) (data : Option String) : Response :=
  .apiError 400 message data

/-- The constructor `apis.NewInternalServerError(message, data)`: status 500. -/
def NewInternalServerError (message : String) (data : Option String) : Response :=
  .apiError 500 message data

/-- Functions of the Go standard library the handler calls, with their error results. -/
structure Lib where
  /-- The function `json.Marshal` on the payload. -/
  jsonMarshal : GoMap → Except String String
  /-- The error `http.NewRequest(method, url, _)` returns, if any. -/
  newRequestError : String → String → Option String

/-- The function `http.NewRequest(method, url, body)`: on success a request with that method,
URL and body and an empty header. -/
def Lib.NewRequest (lib : Lib) (method url body : String) : Except String HttpRequest :=
  match lib.newRequestError method url with
  | some err => .error err
  | none => .ok { Method := method, URL := url, Header := [], Body := body }

/-- What lies outside the handler: the process environment (`os.Getenv`, the empty string for
an unset variable) and the network with the provider behind it (`client.Do`). -/
structure World where
  Getenv : String → String
  clientDo : HttpRequest → Except String HttpResponse

/-- One run of the handler: its response and the outbound calls it performed. -/
structure Outcome where
  response : Response
  calls : List HttpRequest

/-! ## The email payload (source lines 44-86) -/

/-- Raw string literal of the source, lines 49-62, up to the insertion point of the name. -/
def htmlPart0 : String :=
  String.join [
    "\n",
    "                    <div style=\"font-family: Arial, sans-serif; max-width: 600px; margin: 0 auto;\">\n",
    "                        <h1 style=\"color: #1a365d; border-bottom: 2px solid #1a365d; padding-bottom: 10px;\">\n",
    "                            Nuevo Expense Report\n",
    "                        </h1>\n",
    "\n",
    "                        <p style=\"font-size: 16px; margin: 20px 0;\">\n",
    "                            Se ha recibido un nuevo expense report.\n",
    "                        </p>\n",
    "\n",
    "                        <table style=\"width: 100%; border-collapse: collapse; margin: 20px 0;\">\n",
    "                            <tr>\n",
    "                                <td style=\"padding: 8px; border-bottom: 1px solid #e2e8f0;\"><strong>Nombre:</strong></td>\n",
    "                                <td style=\"padding: 8px; border-bottom: 1px solid #e2e8f0;\">"
  ]

/-- Raw string literal of the source, lines 62-66, between the name and the email. -/
def htmlPart1 : String :=
  String.join [
    "</td>\n",
    "                            </tr>\n",
    "                            <tr>\n",
    "                                <td style=\"padding: 8px; border-bottom: 1px solid #e2e8f0;\"><strong>Email:</strong></td>\n",
    "                                <td style=\"padding: 8px; border-bottom: 1px solid #e2e8f0;\">"
  ]

/-- Raw string literal of the source, lines 66-70, between the email and the pps. -/
def htmlPart2 : String :=
  String.join [
    "</td>\n",
    "                            </tr>\n",
    "                            <tr>\n",
    "                                <td style=\"padding: 8px; border-bottom: 1px solid #e2e8f0;\"><strong>PPS:</strong></td>\n",
    "                                <td style=\"padding: 8px; border-bottom: 1px solid #e2e8f0;\">"
  ]

/-- Raw string literal of the source, lines 70-78, after the pps. -/
def htmlPart3 : String :=
  String.join [
    "</td>\n",
    "                            </tr>\n",
    "                        </table>\n",
    "\n",
    "                        <p style=\"font-size: 14px; color: #666; margin: 20px 0;\">\n",
    "                            El PDF del expense report está adjunto.\n",
    "                        </p>\n",
    "                    </div>\n",
    "                "
  ]

/-- The expression of `emailData["html"]` (source lines 49-78). -/
def html (req : EmailRequest) : String :=
  htmlPart0 ++ req.Name ++ htmlPart1 ++ req.Email ++ htmlPart2 ++ req.PPS ++ htmlPart3

/-- The map literal `emailData` (source lines 45-86). -/
def emailData (req : EmailRequest) : GoMap :=
  [ ("from", .str "Nexus Ventures Expense Report <log@happydreamsireland.com>"),
    ("to", .strings ["jesus@irishtaxagents.com"]),
    ("subject", .str ("Nuevo Expense Report - " ++ req.Name)),
    ("html", .str (html req)),
    ("attachments", .maps
      [ [ ("filename", .str "expense-report.pdf"),
          ("content", .str req.PDFData),
          ("type", .str "application/pdf") ] ]) ]

/-! ## The handler (source lines 32-126) -/

/-- The local `resendURL` (source line 95). -/
def resendURL : String := "https://api.resend.com/emails"

/-- The handler of `POST /api/send-expense-report`; `bind` is the result of `c.Bind(&req)`. -/
def handler (lib : Lib) (w : World) (bind : Except String EmailRequest) : Outcome :=
  match bind with
  | .error err => ⟨NewBadRequestError "Invalid request body" (some err), []⟩
  | .ok req =>
    if req.Name = "" ∨ req.Email = "" ∨ req.PPS = "" ∨ req.PDFData = "" then
      ⟨NewBadRequestError "Missing required fields" none, []⟩
    else
      match lib.jsonMarshal (emailData req) with
      | .error err => ⟨NewInternalServerError "Failed to prepare email data" (some err), []⟩
      | .ok jsonData =>
        let resendAPIKey := w.Getenv "RESEND_API_KEY"
        if resendAPIKey = "" then
          ⟨NewInternalServerError "RESEND_API_KEY not configured" none, []⟩
        else
          match lib.NewRequest "POST" resendURL jsonData with
          | .error err => ⟨NewInternalServerError "Failed to create request" (some err), []⟩
          | .ok httpReq0 =>
            let httpReq1 : HttpRequest :=
              { httpReq0 with Header := httpReq0.Header.Set "Content-Type" "application/json" }
            let httpReq : HttpRequest :=
              { httpReq1 with Header := httpReq1.Header.Set "Authorization" ("Bearer " ++ resendAPIKey) }
            match w.clientDo httpReq with
            | .error err => ⟨NewInternalServerError "Failed to send email" (some err), [httpReq]⟩
            | .ok resp =>
              if resp.StatusCode ≠ StatusOK then
                ⟨NewInternalServerError "Email service returned error" none, [httpReq]⟩
              else
                ⟨.json StatusOK
                  [("success", .bool true), ("message", .str "Email sent successfully")],
                  [httpReq]⟩

/-- The fields of a request are all non-empty. -/
def allFieldsNonEmpty (req : EmailRequest) : Prop :=
  req.Name ≠ "" ∧ req.Email ≠ "" ∧ req.PPS ≠ "" ∧ req.PDFData ≠ ""

instance (req : EmailRequest) : Decidable (allFieldsNonEmpty req) := by
  unfold allFieldsNonEmpty; infer_instance

/-- The request the handler hands to `client.Do` for API key `key` and serialized payload
`body` (source lines 102-108). -/
def sentRequest (key body : String) : HttpRequest :=
  { Method := "POST", URL := "https://api.resend.com/emails",
    Header := [("Content-Type", "application/json"), ("Authorization", "Bearer " ++ key)],
    Body := body }

/-! ## Sample surroundings, for evaluating the handler on concrete inputs -/

mutual
/-- A plain rendering of a Go value as JSON text (no escaping, keys in literal order); it
stands in for `json.Marshal` in `okLib` only. -/
def renderValue : GoValue → String
  | .str s => "\"" ++ s ++ "\""
  | .bool b => if b then "true" else "false"
  | .strings xs => "[" ++ String.intercalate "," (xs.map fun s => "\"" ++ s ++ "\"") ++ "]"
  | .maps ms => "[" ++ renderMaps ms ++ "]"
/-- Rendering of a list of maps. -/
def renderMaps : List (List (String × GoValue)) → String
  | [] => ""
  | [m] => "\x7b" ++ renderFields m ++ "\x7d"
  | m :: ms => "\x7b" ++ renderFields m ++ "\x7d," ++ renderMaps ms
/-- Rendering of the entries of a map. -/
def renderFields : List (String × GoValue) → String
  | [] => ""
  | [(k, v)] => "\"" ++ k ++ "\":" ++ renderValue v
  | (k, v) :: kvs => "\"" ++ k ++ "\":" ++ renderValue v ++ "," ++ renderFields kvs
end

/-- A library under which serialization and request construction succeed. -/
def okLib : Lib :=
  { jsonMarshal := fun m => .ok ("\x7b" ++ renderFields m ++ "\x7d"),
    newRequestError := fun _ _ => none }

/-- A world with the given API key whose provider answers every call with `status`. -/
def worldAnswering (key : String) (status : Nat) (body : String) : World :=
  { Getenv := fun name => if name = "RESEND_API_KEY" then key else "",
    clientDo := fun _ => .ok { StatusCode := status, Body := body } }

/-- A world with the given API key in which every call fails in transport. -/
def worldUnreachable (key : String) : World :=
  { Getenv := fun name => if name = "RESEND_API_KEY" then key else "",
    clientDo := fun _ => .error "dial tcp: connection refused" }

/-- The request of the spec's success scenario. -/
def anaRequest : EmailRequest :=
  { Name := "Ana", Email := "ana@x.com", PPS := "1234567T", PDFData := "JVBERi0x..." }

/-- The request of the spec's missing-name scenario. -/
def noNameRequest : EmailRequest :=
  { Name := "", Email := "a@x.com", PPS := "1", PDFData := "x" }

/-! ## The template, row by row -/

/-- The opening of a table row's two cells: the label cell and the start of the value cell
(source lines 61-62, 65-66, 69-70). -/
def rowOpen (label : String) : String :=
  "<td style=\"padding: 8px; border-bottom: 1px solid #e2e8f0;\"><strong>" ++ label ++
    ":</strong></td>\n" ++
    "                                <td style=\"padding: 8px; border-bottom: 1px solid #e2e8f0;\">"

/-- The two cells of a table row: the label cell and the value cell holding `value` as is. -/
def rowCells (label value : String) : String :=
  rowOpen label ++ value ++ "</td>"

/-- The template before the cells of the first row (source lines 49-61). -/
def templateHead : String :=
  String.join [
    "\n",
    "                    <div style=\"font-family: Arial, sans-serif; max-width: 600px; margin: 0 auto;\">\n",
    "                        <h1 style=\"color: #1a365d; border-bottom: 2px solid #1a365d; padding-bottom: 10px;\">\n",
    "                            Nuevo Expense Report\n",
    "                        </h1>\n",
    "\n",
    "                        <p style=\"font-size: 16px; margin: 20px 0;\">\n",
    "                            Se ha recibido un nuevo expense report.\n",
    "                        </p>\n",
    "\n",
    "                        <table style=\"width: 100%; border-collapse: collapse; margin: 20px 0;\">\n",
    "                            <tr>\n",
    "                                "
  ]

/-- The template between the cells of one row and those of the next. -/
def templateRowBreak : String :=
  String.join [
    "\n",
    "                            </tr>\n",
    "                            <tr>\n",
    "                                "
  ]

/-- The template after the cells of the last row (source lines 70-78). -/
def templateTail : String :=
  String.join [
    "\n",
    "                            </tr>\n",
    "                        </table>\n",
    "\n",
    "                        <p style=\"font-size: 14px; color: #666; margin: 20px 0;\">\n",
    "                            El PDF del expense report está adjunto.\n",
    "                        </p>\n",
    "                    </div>\n",
    "                "
  ]

/-! ## Theorems -/

theorem handler_missing (lib : Lib) (w : World) (req : EmailRequest)
    (h : req.Name = "" ∨ req.Email = "" ∨ req.PPS = "" ∨ req.PDFData = "") :
    handler lib w (.ok req) = ⟨NewBadRequestError "Missing required fields" none, []⟩ := by
  simp only [handler, if_pos h]

theorem not_missing_of_valid {req : EmailRequest} (hv : allFieldsNonEmpty req) :
    ¬ (req.Name = "" ∨ req.Email = "" ∨ req.PPS = "" ∨ req.PDFData = "") := by
  rcases hv with ⟨h1, h2, h3, h4⟩
  rintro (h | h | h | h) <;> contradiction

theorem handler_marshal_error (lib : Lib) (w : World) (req : EmailRequest)
    (hv : allFieldsNonEmpty req) (err : String)
    (hm : lib.jsonMarshal (emailData req) = .error err) :
    handler lib w (.ok req)
      = ⟨NewInternalServerError "Failed to prepare email data" (some err), []⟩ := by
  simp only [handler, if_neg (not_missing_of_valid hv), hm]

theorem handler_no_key (lib : Lib) (w : World) (req : EmailRequest)
    (hv : allFieldsNonEmpty req) (jsonData : String)
    (hm : lib.jsonMarshal (emailData req) = .ok jsonData)
    (hk : w.Getenv "RESEND_API_KEY" = "") :
    handler lib w (.ok req)
      = ⟨NewInternalServerError "RESEND_API_KEY not configured" none, []⟩ := by
  simp only [handler, if_neg (not_missing_of_valid hv), hm, hk, if_true]

theorem handler_new_request_error (lib : Lib) (w : World) (req : EmailRequest)
    (hv : allFieldsNonEmpty req) (jsonData : String)
    (hm : lib.jsonMarshal (emailData req) = .ok jsonData)
    (hk : w.Getenv "RESEND_API_KEY" ≠ "") (err : String)
    (hn : lib.newRequestError "POST" resendURL = some err) :
    handler lib w (.ok req)
      = ⟨NewInternalServerError "Failed to create request" (some err), []⟩ := by
  simp only [handler, if_neg (not_missing_of_valid hv), hm, if_neg hk, Lib.NewRequest, hn]

theorem set_headers (key : String) :
    Header.Set (Header.Set [] "Content-Type" "application/json") "Authorization"
        ("Bearer " ++ key)
      = [("Content-Type", "application/json"), ("Authorization", "Bearer " ++ key)] := by
  simp [Header.Set]

/-- Once validation, serialization, the key check and request construction have passed, the
handler performs one `client.Do` on `sentRequest` and maps its result to the response. -/
theorem handler_sends (lib : Lib) (w : World) (req : EmailRequest)
    (hv : allFieldsNonEmpty req) (jsonData : String)
    (hm : lib.jsonMarshal (emailData req) = .ok jsonData)
    (hk : w.Getenv "RESEND_API_KEY" ≠ "")
    (hn : lib.newRequestError "POST" resendURL = none) :
    handler lib w (.ok req)
      = match w.clientDo (sentRequest (w.Getenv "RESEND_API_KEY") jsonData) with
        | .error err =>
          ⟨NewInternalServerError "Failed to send email" (some err),
            [sentRequest (w.Getenv "RESEND_API_KEY") jsonData]⟩
        | .ok resp =>
          if resp.StatusCode ≠ 200 then
            ⟨NewInternalServerError "Email service returned error" none,
              [sentRequest (w.Getenv "RESEND_API_KEY") jsonData]⟩
          else
            ⟨.json 200 [("success", .bool true), ("message", .str "Email sent successfully")],
              [sentRequest (w.Getenv "RESEND_API_KEY") jsonData]⟩ := by
  have hn0 : lib.newRequestError "POST" "https://api.resend.com/emails" = none := hn
  simp only [handler, if_neg (not_missing_of_valid hv), hm, if_neg hk, Lib.NewRequest,
    resendURL, hn0, set_headers, sentRequest, StatusOK]

/-- The six exits of the handler on a request that passes validation. -/
theorem handler_valid_cases (lib : Lib) (w : World) (req : EmailRequest)
    (hv : allFieldsNonEmpty req) :
    (∃ err, lib.jsonMarshal (emailData req) = .error err ∧
      handler lib w (.ok req)
        = ⟨NewInternalServerError "Failed to prepare email data" (some err), []⟩) ∨
    (∃ j, lib.jsonMarshal (emailData req) = .ok j ∧ w.Getenv "RESEND_API_KEY" = "" ∧
      handler lib w (.ok req)
        = ⟨NewInternalServerError "RESEND_API_KEY not configured" none, []⟩) ∨
    (∃ j err, lib.jsonMarshal (emailData req) = .ok j ∧ w.Getenv "RESEND_API_KEY" ≠ "" ∧
      lib.newRequestError "POST" resendURL = some err ∧
      handler lib w (.ok req)
        = ⟨NewInternalServerError "Failed to create request" (some err), []⟩) ∨
    (∃ j err, lib.jsonMarshal (emailData req) = .ok j ∧ w.Getenv "RESEND_API_KEY" ≠ "" ∧
      lib.newRequestError "POST" resendURL = none ∧
      w.clientDo (sentRequest (w.Getenv "RESEND_API_KEY") j) = .error err ∧
      handler lib w (.ok req)
        = ⟨NewInternalServerError "Failed to send email" (some err),
            [sentRequest (w.Getenv "RESEND_API_KEY") j]⟩) ∨
    (∃ j resp, lib.jsonMarshal (emailData req) = .ok j ∧ w.Getenv "RESEND_API_KEY" ≠ "" ∧
      lib.newRequestError "POST" resendURL = none ∧
      w.clientDo (sentRequest (w.Getenv "RESEND_API_KEY") j) = .ok resp ∧
      resp.StatusCode ≠ 200 ∧
      handler lib w (.ok req)
        = ⟨NewInternalServerError "Email service returned error" none,
            [sentRequest (w.Getenv "RESEND_API_KEY") j]⟩) ∨
    (∃ j resp, lib.jsonMarshal (emailData req) = .ok j ∧ w.Getenv "RESEND_API_KEY" ≠ "" ∧
      lib.newRequestError "POST" resendURL = none ∧
      w.clientDo (sentRequest (w.Getenv "RESEND_API_KEY") j) = .ok resp ∧
      resp.StatusCode = 200 ∧
      handler lib w (.ok req)
        = ⟨.json 200 [("success", .bool true), ("message", .str "Email sent successfully")],
            [sentRequest (w.Getenv "RESEND_API_KEY") j]⟩) := by
  cases hm : lib.jsonMarshal (emailData req) with
  | error err => exact Or.inl ⟨err, rfl, handler_marshal_error lib w req hv err hm⟩
  | ok j =>
    right
    by_cases hk : w.Getenv "RESEND_API_KEY" = ""
    · exact Or.inl ⟨j, rfl, hk, handler_no_key lib w req hv j hm hk⟩
    · right
      cases hn : lib.newRequestError "POST" resendURL with
      | some err =>
        exact Or.inl ⟨j, err, rfl, hk, rfl, handler_new_request_error lib w req hv j hm hk err hn⟩
      | none =>
        right
        have hs := handler_sends lib w req hv j hm hk hn
        cases hd : w.clientDo (sentRequest (w.Getenv "RESEND_API_KEY") j) with
        | error err =>
          rw [hd] at hs
          exact Or.inl ⟨j, err, rfl, hk, rfl, hd, hs⟩
        | ok resp =>
          rw [hd] at hs
          right
          by_cases hc : resp.StatusCode = 200
          · right
            refine ⟨j, resp, rfl, hk, rfl, hd, hc, ?_⟩
            rw [hs]; simp [hc]
          · left
            refine ⟨j, resp, rfl, hk, rfl, hd, hc, ?_⟩
            rw [hs]; simp [hc]

/-- Every outbound call of a run is the single `sentRequest` of a valid request. -/
theorem handler_call_inv (lib : Lib) (w : World) (req : EmailRequest) (r : HttpRequest)
    (hr : r ∈ (handler lib w (.ok req)).calls) :
    allFieldsNonEmpty req ∧ w.Getenv "RESEND_API_KEY" ≠ "" ∧
    lib.newRequestError "POST" resendURL = none ∧
    ∃ j, lib.jsonMarshal (emailData req) = .ok j ∧
      r = sentRequest (w.Getenv "RESEND_API_KEY") j ∧
      (handler lib w (.ok req)).calls = [r] := by
  by_cases hv : allFieldsNonEmpty req
  · rcases handler_valid_cases lib w req hv with
      ⟨err, hm, h⟩ | ⟨j, hm, hk, h⟩ | ⟨j, err, hm, hk, hn, h⟩ | ⟨j, err, hm, hk, hn, hd, h⟩ |
      ⟨j, resp, hm, hk, hn, hd, hc, h⟩ | ⟨j, resp, hm, hk, hn, hd, hc, h⟩
    · rw [h] at hr; simp at hr
    · rw [h] at hr; simp at hr
    · rw [h] at hr; simp at hr
    · rw [h] at hr ⊢
      simp only [List.mem_singleton] at hr
      exact ⟨hv, hk, hn, j, hm, hr, by rw [hr]⟩
    · rw [h] at hr ⊢
      simp only [List.mem_singleton] at hr
      exact ⟨hv, hk, hn, j, hm, hr, by rw [hr]⟩
    · rw [h] at hr ⊢
      simp only [List.mem_singleton] at hr
      exact ⟨hv, hk, hn, j, hm, hr, by rw [hr]⟩
  · have hmiss : req.Name = "" ∨ req.Email = "" ∨ req.PPS = "" ∨ req.PDFData = "" := by
      unfold allFieldsNonEmpty at hv
      by_contra hc
      apply hv
      refine ⟨fun h => hc (Or.inl h), fun h => hc (Or.inr (Or.inl h)),
        fun h => hc (Or.inr (Or.inr (Or.inl h))), fun h => hc (Or.inr (Or.inr (Or.inr h)))⟩
    rw [handler_missing lib w req hmiss] at hr
    simp at hr

/-! ### Validation -/

/-- C1: a deserialized request with at least one of name, email, pps, pdfData empty is answered
400 Bad Request ("Missing required fields") and no outbound call is made, for every library
behaviour, API key and provider. -/
theorem C1_missing_field_bad_request (lib : Lib) (w : World) (req : EmailRequest)
    (h : req.Name = "" ∨ req.Email = "" ∨ req.PPS = "" ∨ req.PDFData = "") :
    (handler lib w (.ok req)).response = NewBadRequestError "Missing required fields" none ∧
    (handler lib w (.ok req)).response.status = 400 ∧
    (handler lib w (.ok req)).calls = [] := by
  rw [handler_missing lib w req h]
  exact ⟨rfl, rfl, rfl⟩

/-- C1 at the spec's scenario: an empty name gives 400 and zero outbound calls. -/
theorem C1_missing_field_bad_request_witness :
    (noNameRequest.Name = "" ∨ noNameRequest.Email = "" ∨ noNameRequest.PPS = "" ∨
      noNameRequest.PDFData = "") ∧
    (handler okLib (worldAnswering "re_123" 200 "ok") (.ok noNameRequest)).response.status = 400 ∧
    (handler okLib (worldAnswering "re_123" 200 "ok") (.ok noNameRequest)).calls = [] :=
  ⟨Or.inl rfl,
    (C1_missing_field_bad_request okLib (worldAnswering "re_123" 200 "ok") noNameRequest
      (Or.inl rfl)).2⟩

/-- C8: validation is exactly the non-emptiness of the four fields: the handler answers 400 to a
deserialized request if and only if some field is empty, so a request with four non-empty
fields is never answered 400, whatever the fields contain; a request made of a blank name, a
text that is no address, a tab and a text that is not base64 is sent and answered 200. -/
theorem C8_validation_is_non_emptiness (lib : Lib) (w : World) (req : EmailRequest) :
    ((handler lib w (.ok req)).response.status = 400 ↔ ¬ allFieldsNonEmpty req) ∧
    ((handler lib w (.ok req)).response = NewBadRequestError "Missing required fields" none ↔
      (req.Name = "" ∨ req.Email = "" ∨ req.PPS = "" ∨ req.PDFData = "")) ∧
    (handler okLib (worldAnswering "re_123" 200 "ok")
      (.ok ⟨" ", "not an address", "\t", "%%%"⟩)).response.status = 200 := by
  rw [← and_assoc]
  refine ⟨?_, by decide⟩
  by_cases hv : allFieldsNonEmpty req
  · have hnm := not_missing_of_valid hv
    rcases handler_valid_cases lib w req hv with
      ⟨err, _, h⟩ | ⟨j, _, _, h⟩ | ⟨j, err, _, _, _, h⟩ | ⟨j, err, _, _, _, _, h⟩ |
      ⟨j, resp, _, _, _, _, _, h⟩ | ⟨j, resp, _, _, _, _, _, h⟩ <;>
    · rw [h]
      simp [hv, hnm, NewInternalServerError, NewBadRequestError, Response.status]
  · have hmiss : req.Name = "" ∨ req.Email = "" ∨ req.PPS = "" ∨ req.PDFData = "" := by
      by_contra hc
      exact hv ⟨fun h => hc (Or.inl h), fun h => hc (Or.inr (Or.inl h)),
        fun h => hc (Or.inr (Or.inr (Or.inl h))), fun h => hc (Or.inr (Or.inr (Or.inr h)))⟩
    rw [handler_missing lib w req hmiss]
    simp [hv, hmiss, NewBadRequestError, Response.status]

/-! ### The payload -/

/-- C2: for a request with four non-empty fields the payload has `to` the one-element list of
the fixed recipient, `from` the fixed sender, `subject` "Nuevo Expense Report - " followed by
the name, and `attachments` one attachment with filename "expense-report.pdf", type
"application/pdf" and content the submitted pdfData; every outbound call carries the
serialization of this payload. -/
theorem C2_payload_fields (req : EmailRequest) (_hv : allFieldsNonEmpty req) :
    mapGet (emailData req) "to" = some (.strings ["jesus@irishtaxagents.com"]) ∧
    mapGet (emailData req) "from"
      = some (.str "Nexus Ventures Expense Report <log@happydreamsireland.com>") ∧
    mapGet (emailData req) "subject" = some (.str ("Nuevo Expense Report - " ++ req.Name)) ∧
    (∃ att : GoMap, mapGet (emailData req) "attachments" = some (.maps [att]) ∧
      mapGet att "filename" = some (.str "expense-report.pdf") ∧
      mapGet att "type" = some (.str "application/pdf") ∧
      mapGet att "content" = some (.str req.PDFData) ∧
      mapKeys att = ["filename", "content", "type"]) ∧
    mapKeys (emailData req) = ["from", "to", "subject", "html", "attachments"] ∧
    (∀ (lib : Lib) (w : World) (r : HttpRequest), r ∈ (handler lib w (.ok req)).calls →
      lib.jsonMarshal (emailData req) = .ok r.Body) := by
  refine ⟨rfl, rfl, rfl, ⟨_, rfl, rfl, rfl, rfl, rfl⟩, rfl, ?_⟩
  intro lib w r hr
  obtain ⟨_, _, _, j, hm, hrj, _⟩ := handler_call_inv lib w req r hr
  rw [hm, hrj]
  rfl

/-- C2 at the spec's scenario: name "Ana" gives the subject "Nuevo Expense Report - Ana" and
the pdfData is the attachment content. -/
theorem C2_payload_fields_witness :
    allFieldsNonEmpty anaRequest ∧
    mapGet (emailData anaRequest) "subject" = some (.str "Nuevo Expense Report - Ana") ∧
    (∃ att : GoMap, mapGet (emailData anaRequest) "attachments" = some (.maps [att]) ∧
      mapGet att "content" = some (.str "JVBERi0x...")) :=
  ⟨by decide,
    (C2_payload_fields anaRequest (by decide)).2.2.1,
    (C2_payload_fields anaRequest (by decide)).2.2.2.1.imp
      (fun _ h => ⟨h.1, h.2.2.2.1⟩)⟩

/-! ### The outbound call and the response -/

/-- C4: for a request with four non-empty fields, when `RESEND_API_KEY` is unset or empty the
handler answers 500 Internal Server Error and performs no outbound call; when serialization
succeeded the message is "RESEND_API_KEY not configured". -/
theorem C4_missing_key_no_call (lib : Lib) (w : World) (req : EmailRequest)
    (hv : allFieldsNonEmpty req) (hk : w.Getenv "RESEND_API_KEY" = "") :
    (handler lib w (.ok req)).response.status = 500 ∧
    (handler lib w (.ok req)).calls = [] ∧
    (∀ j, lib.jsonMarshal (emailData req) = .ok j →
      (handler lib w (.ok req)).response
        = NewInternalServerError "RESEND_API_KEY not configured" none) := by
  rcases handler_valid_cases lib w req hv with
    ⟨err, hm, h⟩ | ⟨j, hm, _, h⟩ | ⟨j, err, _, hk0, _, _⟩ | ⟨j, err, _, hk0, _, _, _⟩ |
    ⟨j, resp, _, hk0, _, _, _, _⟩ | ⟨j, resp, _, hk0, _, _, _, _⟩
  · rw [h]
    refine ⟨rfl, rfl, ?_⟩
    intro j hj
    rw [hm] at hj
    cases hj
  · rw [h]
    exact ⟨rfl, rfl, fun _ _ => rfl⟩
  · exact absurd hk hk0
  · exact absurd hk hk0
  · exact absurd hk hk0
  · exact absurd hk hk0

/-- C4 on the scenario request with no API key in the environment. -/
theorem C4_missing_key_no_call_witness :
    allFieldsNonEmpty anaRequest ∧
    (worldAnswering "" 200 "ok").Getenv "RESEND_API_KEY" = "" ∧
    (handler okLib (worldAnswering "" 200 "ok") (.ok anaRequest)).response.status = 500 ∧
    (handler okLib (worldAnswering "" 200 "ok") (.ok anaRequest)).calls = [] :=
  ⟨by decide, by decide,
    (C4_missing_key_no_call okLib (worldAnswering "" 200 "ok") anaRequest
      (by decide) (by decide)).1,
    (C4_missing_key_no_call okLib (worldAnswering "" 200 "ok") anaRequest
      (by decide) (by decide)).2.1⟩

/-- C3: for a request with four non-empty fields and a configured API key, the response
follows the outcome of the outbound call: status 200 from the provider gives HTTP 200 with the
body "success": true, "message": "Email sent successfully"; any other status gives 500; a
transport error gives 500; so the response is the success JSON exactly when the provider
answered 200. The call is performed whenever serialization and request construction succeed. -/
theorem C3_response_follows_provider (lib : Lib) (w : World) (req : EmailRequest)
    (hv : allFieldsNonEmpty req) (hk : w.Getenv "RESEND_API_KEY" ≠ "") :
    (∀ r resp, r ∈ (handler lib w (.ok req)).calls → w.clientDo r = .ok resp →
      resp.StatusCode = 200 →
      (handler lib w (.ok req)).response
        = .json 200 [("success", .bool true), ("message", .str "Email sent successfully")]) ∧
    (∀ r resp, r ∈ (handler lib w (.ok req)).calls → w.clientDo r = .ok resp →
      resp.StatusCode ≠ 200 → (handler lib w (.ok req)).response.status = 500) ∧
    (∀ r err, r ∈ (handler lib w (.ok req)).calls → w.clientDo r = .error err →
      (handler lib w (.ok req)).response.status = 500) ∧
    ((handler lib w (.ok req)).response
        = .json 200 [("success", .bool true), ("message", .str "Email sent successfully")] ↔
      ∃ r resp, r ∈ (handler lib w (.ok req)).calls ∧ w.clientDo r = .ok resp ∧
        resp.StatusCode = 200) ∧
    (∀ j, lib.jsonMarshal (emailData req) = .ok j →
      lib.newRequestError "POST" resendURL = none →
      (handler lib w (.ok req)).calls ≠ []) := by
  rcases handler_valid_cases lib w req hv with
    ⟨err, hm, h⟩ | ⟨j, hm, hk0, h⟩ | ⟨j, err, hm, _, hn, h⟩ | ⟨j, err, hm, _, hn, hd, h⟩ |
    ⟨j, resp, hm, _, hn, hd, hc, h⟩ | ⟨j, resp, hm, _, hn, hd, hc, h⟩
  · rw [h]
    simp [NewInternalServerError, hm]
  · exact absurd hk0 hk
  · rw [h]
    simp [NewInternalServerError, hn]
  · rw [h]
    simp only [List.mem_singleton, NewInternalServerError, Response.status]
    refine ⟨?_, ?_, ?_, ?_, ?_⟩
    · intro r resp0 hr hd0
      rw [hr, hd] at hd0
      cases hd0
    · intros; trivial
    · intros; trivial
    · constructor
      · intro hcontra
        cases hcontra
      · rintro ⟨r, resp0, hr, hd0, _⟩
        rw [hr, hd] at hd0
        cases hd0
    · intros
      simp
  · rw [h]
    simp only [List.mem_singleton, NewInternalServerError, Response.status]
    refine ⟨?_, ?_, ?_, ?_, ?_⟩
    · intro r resp0 hr hd0 hc0
      rw [hr, hd] at hd0
      cases hd0
      exact absurd hc0 hc
    · intros; trivial
    · intros; trivial
    · constructor
      · intro hcontra
        cases hcontra
      · rintro ⟨r, resp0, hr, hd0, hc0⟩
        rw [hr, hd] at hd0
        cases hd0
        exact absurd hc0 hc
    · intros
      simp
  · rw [h]
    simp only [List.mem_singleton, Response.status]
    refine ⟨?_, ?_, ?_, ?_, ?_⟩
    · intros; trivial
    · intro r resp0 hr hd0 hc0
      rw [hr, hd] at hd0
      cases hd0
      exact absurd hc hc0
    · intro r err hr hd0
      rw [hr, hd] at hd0
      cases hd0
    · constructor
      · intro _
        exact ⟨_, resp, rfl, hd, hc⟩
      · intro _
        trivial
    · intros
      simp

/-- C3 at the spec's scenario: a configured key and a provider answering 200 give the success
response. -/
theorem C3_response_follows_provider_witness :
    allFieldsNonEmpty anaRequest ∧
    (worldAnswering "re_123" 200 "ok").Getenv "RESEND_API_KEY" ≠ "" ∧
    (handler okLib (worldAnswering "re_123" 200 "ok") (.ok anaRequest)).response
      = .json 200 [("success", .bool true), ("message", .str "Email sent successfully")] :=
  ⟨by decide, by decide,
    (C3_response_follows_provider okLib (worldAnswering "re_123" 200 "ok") anaRequest
      (by decide) (by decide)).2.2.2.1.mpr
      ⟨sentRequest "re_123" ("\x7b" ++ renderFields (emailData anaRequest) ++ "\x7d"),
        ⟨200, "ok"⟩, List.Mem.head _, rfl, rfl⟩⟩

/-- C7: for a request with four non-empty fields and a configured API key `k`, every outbound
call is a POST to https://api.resend.com/emails with header Content-Type: application/json,
header Authorization: "Bearer " followed by `k`, and the serialized payload as body; and when
serialization and request construction succeed, exactly that call is performed. -/
theorem C7_outbound_request_shape (lib : Lib) (w : World) (req : EmailRequest)
    (hv : allFieldsNonEmpty req) (hk : w.Getenv "RESEND_API_KEY" ≠ "") :
    (∀ r, r ∈ (handler lib w (.ok req)).calls →
      r.Method = "POST" ∧ r.URL = "https://api.resend.com/emails" ∧
      r.Header.Get "Content-Type" = some "application/json" ∧
      r.Header.Get "Authorization" = some ("Bearer " ++ w.Getenv "RESEND_API_KEY") ∧
      r.Header.map Prod.fst = ["Content-Type", "Authorization"] ∧
      lib.jsonMarshal (emailData req) = .ok r.Body) ∧
    (∀ j, lib.jsonMarshal (emailData req) = .ok j →
      lib.newRequestError "POST" "https://api.resend.com/emails" = none →
      (handler lib w (.ok req)).calls
        = [{ Method := "POST", URL := "https://api.resend.com/emails",
             Header := [("Content-Type", "application/json"),
                        ("Authorization", "Bearer " ++ w.Getenv "RESEND_API_KEY")],
             Body := j }]) := by
  constructor
  · intro r hr
    obtain ⟨_, _, _, j, hm, hrj, _⟩ := handler_call_inv lib w req r hr
    subst hrj
    refine ⟨rfl, rfl, ?_, ?_, rfl, hm⟩
    · simp [sentRequest, Header.Get, List.lookup]
    · simp [sentRequest, Header.Get, List.lookup]
  · intro j hm hn
    have hs := handler_sends lib w req hv j hm hk hn
    rw [hs]
    cases w.clientDo (sentRequest (w.Getenv "RESEND_API_KEY") j) with
    | error err => rfl
    | ok resp =>
      by_cases hc : resp.StatusCode = 200
      · simp [hc, sentRequest]
      · simp [hc, sentRequest]

/-- C7 on the scenario request with key "re_123": the call carries "Bearer re_123". -/
theorem C7_outbound_request_shape_witness :
    allFieldsNonEmpty anaRequest ∧
    (worldAnswering "re_123" 200 "ok").Getenv "RESEND_API_KEY" ≠ "" ∧
    (handler okLib (worldAnswering "re_123" 200 "ok") (.ok anaRequest)).calls
      = [{ Method := "POST", URL := "https://api.resend.com/emails",
           Header := [("Content-Type", "application/json"), ("Authorization", "Bearer re_123")],
           Body := "\x7b" ++ renderFields (emailData anaRequest) ++ "\x7d" }] :=
  ⟨by decide, by decide,
    (C7_outbound_request_shape okLib (worldAnswering "re_123" 200 "ok") anaRequest
      (by decide) (by decide)).2 _ rfl rfl⟩

/-- C5, as the code has it: a request with four non-empty fields causes at most one outbound
call, also when the call fails (no retry); it causes exactly one if and only if the API key is
configured and serialization and request construction succeed, and none otherwise. -/
theorem C5_at_most_one_call (lib : Lib) (w : World) (req : EmailRequest)
    (hv : allFieldsNonEmpty req) :
    (handler lib w (.ok req)).calls.length ≤ 1 ∧
    ((handler lib w (.ok req)).calls.length = 1 ↔
      (w.Getenv "RESEND_API_KEY" ≠ "" ∧ (∃ j, lib.jsonMarshal (emailData req) = .ok j) ∧
        lib.newRequestError "POST" resendURL = none)) := by
  rcases handler_valid_cases lib w req hv with
    ⟨err, hm, h⟩ | ⟨j, hm, hk, h⟩ | ⟨j, err, hm, hk, hn, h⟩ | ⟨j, err, hm, hk, hn, hd, h⟩ |
    ⟨j, resp, hm, hk, hn, hd, hc, h⟩ | ⟨j, resp, hm, hk, hn, hd, hc, h⟩
  · rw [h]; simp [hm]
  · rw [h]; simp [hk]
  · rw [h]; simp [hn]
  · rw [h]; simp [hm, hk, hn]
  · rw [h]; simp [hm, hk, hn]
  · rw [h]; simp [hm, hk, hn]

/-- C5 on the scenario request: one call with a key, also when the transport fails. -/
theorem C5_at_most_one_call_witness :
    allFieldsNonEmpty anaRequest ∧
    (handler okLib (worldUnreachable "re_123") (.ok anaRequest)).calls.length = 1 :=
  ⟨by decide,
    (C5_at_most_one_call okLib (worldUnreachable "re_123") anaRequest (by decide)).2.mpr
      ⟨by decide, ⟨_, rfl⟩, rfl⟩⟩

/-- C5 as stated fails: the scenario request, with four non-empty fields, causes no outbound
call when the API key is not configured. -/
theorem C5_counterexample :
    allFieldsNonEmpty anaRequest ∧
    (handler okLib (worldAnswering "" 200 "ok") (.ok anaRequest)).calls.length = 0 ∧
    ¬ (∀ (lib : Lib) (w : World) (req : EmailRequest), allFieldsNonEmpty req →
        (handler lib w (.ok req)).calls.length = 1) := by
  have h0 : (handler okLib (worldAnswering "" 200 "ok") (.ok anaRequest)).calls.length = 0 := by
    decide
  refine ⟨by decide, h0, ?_⟩
  intro hall
  have h1 := hall okLib (worldAnswering "" 200 "ok") anaRequest (by decide)
  rw [h0] at h1
  exact absurd h1 (by decide)

/-- C6: for a request with four non-empty fields and configured keys, any two runs in which
the provider answers the outbound call with a status other than 200 give the same response:
status 500, message "Email service returned error", no attached data, whatever the provider's
status codes and bodies. -/
theorem C6_provider_error_not_leaked (lib : Lib) (w₁ w₂ : World) (req : EmailRequest)
    (_hv : allFieldsNonEmpty req)
    (_hk₁ : w₁.Getenv "RESEND_API_KEY" ≠ "") (_hk₂ : w₂.Getenv "RESEND_API_KEY" ≠ "")
    (r₁ r₂ : HttpRequest) (resp₁ resp₂ : HttpResponse)
    (hr₁ : r₁ ∈ (handler lib w₁ (.ok req)).calls) (hd₁ : w₁.clientDo r₁ = .ok resp₁)
    (hc₁ : resp₁.StatusCode ≠ 200)
    (hr₂ : r₂ ∈ (handler lib w₂ (.ok req)).calls) (hd₂ : w₂.clientDo r₂ = .ok resp₂)
    (hc₂ : resp₂.StatusCode ≠ 200) :
    (handler lib w₁ (.ok req)).response = (handler lib w₂ (.ok req)).response ∧
    (handler lib w₁ (.ok req)).response = .apiError 500 "Email service returned error" none := by
  have key : ∀ (w : World) (r : HttpRequest) (resp : HttpResponse),
      r ∈ (handler lib w (.ok req)).calls → w.clientDo r = .ok resp → resp.StatusCode ≠ 200 →
      (handler lib w (.ok req)).response
        = .apiError 500 "Email service returned error" none := by
    intro w r resp hr hd hc
    obtain ⟨hv, hk, hn, j, hm, hrj, _⟩ := handler_call_inv lib w req r hr
    have hs := handler_sends lib w req hv j hm hk hn
    rw [← hrj, hd] at hs
    rw [hs]
    simp [hc, NewInternalServerError]
  rw [key w₁ r₁ resp₁ hr₁ hd₁ hc₁, key w₂ r₂ resp₂ hr₂ hd₂ hc₂]
  exact ⟨rfl, rfl⟩

/-- C6 on the scenario request: a provider answering 403 with one body and another answering
503 with another body, under different keys, give the same response. -/
theorem C6_provider_error_not_leaked_witness :
    (handler okLib (worldAnswering "re_123" 403 "invalid api key") (.ok anaRequest)).response
      = (handler okLib (worldAnswering "re_456" 503 "upstream down") (.ok anaRequest)).response ∧
    (handler okLib (worldAnswering "re_123" 403 "invalid api key") (.ok anaRequest)).response
      = .apiError 500 "Email service returned error" none :=
  C6_provider_error_not_leaked okLib (worldAnswering "re_123" 403 "invalid api key")
    (worldAnswering "re_456" 503 "upstream down") anaRequest (by decide) (by decide) (by decide)
    (sentRequest "re_123" ("\x7b" ++ renderFields (emailData anaRequest) ++ "\x7d"))
    (sentRequest "re_456" ("\x7b" ++ renderFields (emailData anaRequest) ++ "\x7d"))
    ⟨403, "invalid api key"⟩ ⟨503, "upstream down"⟩
    (List.Mem.head _) rfl (by decide) (List.Mem.head _) rfl (by decide)

/-- C10: the payload depends on the four request fields only: two runs on requests with the
same name, email, pps and pdfData build the same payload and the same serialized body, and
any outbound calls they perform carry the same body, whatever the API keys and the provider's
answers in the two runs. -/
theorem C10_payload_deterministic (lib : Lib) (w₁ w₂ : World) (req₁ req₂ : EmailRequest)
    (hName : req₁.Name = req₂.Name) (hEmail : req₁.Email = req₂.Email)
    (hPPS : req₁.PPS = req₂.PPS) (hPDF : req₁.PDFData = req₂.PDFData) :
    emailData req₁ = emailData req₂ ∧
    lib.jsonMarshal (emailData req₁) = lib.jsonMarshal (emailData req₂) ∧
    (∀ c₁ c₂, c₁ ∈ (handler lib w₁ (.ok req₁)).calls → c₂ ∈ (handler lib w₂ (.ok req₂)).calls →
      c₁.Body = c₂.Body ∧ c₁.Method = c₂.Method ∧ c₁.URL = c₂.URL) := by
  have hreq : req₁ = req₂ := by
    cases req₁; cases req₂; simp_all
  subst hreq
  refine ⟨rfl, rfl, ?_⟩
  intro c₁ c₂ h₁ h₂
  obtain ⟨_, _, _, j₁, hm₁, hc₁, _⟩ := handler_call_inv lib w₁ req₁ c₁ h₁
  obtain ⟨_, _, _, j₂, hm₂, hc₂, _⟩ := handler_call_inv lib w₂ req₁ c₂ h₂
  rw [hm₁] at hm₂
  cases hm₂
  subst hc₁ hc₂
  exact ⟨rfl, rfl, rfl⟩

/-- C10 on the scenario request, run once with key "re_123" and a provider answering 200 and
once with key "re_456" and an unreachable provider: the calls carry the same body. -/
theorem C10_payload_deterministic_witness :
    (handler okLib (worldAnswering "re_123" 200 "ok") (.ok anaRequest)).calls.length = 1 ∧
    (handler okLib (worldUnreachable "re_456") (.ok anaRequest)).calls.length = 1 ∧
    (∀ c₁ c₂, c₁ ∈ (handler okLib (worldAnswering "re_123" 200 "ok") (.ok anaRequest)).calls →
      c₂ ∈ (handler okLib (worldUnreachable "re_456") (.ok anaRequest)).calls →
      c₁.Body = c₂.Body ∧ c₁.Method = c₂.Method ∧ c₁.URL = c₂.URL) :=
  ⟨by decide, by decide,
    (C10_payload_deterministic okLib (worldAnswering "re_123" 200 "ok")
      (worldUnreachable "re_456") anaRequest anaRequest rfl rfl rfl rfl).2.2⟩

/-! ### The HTML body -/

set_option maxRecDepth 100000 in
theorem htmlPart0_eq : htmlPart0 = templateHead ++ rowOpen "Nombre" := by
  decide

set_option maxRecDepth 100000 in
theorem htmlPart1_eq : htmlPart1 = "</td>" ++ templateRowBreak ++ rowOpen "Email" := by
  decide

set_option maxRecDepth 100000 in
theorem htmlPart2_eq : htmlPart2 = "</td>" ++ templateRowBreak ++ rowOpen "PPS" := by
  decide

set_option maxRecDepth 100000 in
theorem htmlPart3_eq : htmlPart3 = "</td>" ++ templateTail := by
  decide

set_option maxRecDepth 100000 in
theorem htmlPart_lengths :
    htmlPart0.length = 800 ∧ htmlPart1.length = 286 ∧ htmlPart2.length = 284 ∧
    htmlPart3.length = 296 := by
  decide

/-- C9: for a request with four non-empty fields the `html` entry of the payload is the fixed
template with the name, the email and the pps inserted as they are, each once and in that
order: the name in the value cell after the label "Nombre", the email after "Email", the pps
after "PPS"; nothing is escaped, so the length of the html is that of the template plus the
lengths of the three values. -/
theorem C9_html_raw_interpolation (req : EmailRequest) (_hv : allFieldsNonEmpty req) :
    mapGet (emailData req) "html" = some (.str (html req)) ∧
    html req
      = templateHead ++ rowCells "Nombre" req.Name ++ templateRowBreak ++
          rowCells "Email" req.Email ++ templateRowBreak ++ rowCells "PPS" req.PPS ++
          templateTail ∧
    (html req).length = 1666 + req.Name.length + req.Email.length + req.PPS.length := by
  refine ⟨rfl, ?_, ?_⟩
  · simp only [html, rowCells, htmlPart0_eq, htmlPart1_eq, htmlPart2_eq, htmlPart3_eq,
      String.append_assoc]
  · obtain ⟨h0, h1, h2, h3⟩ := htmlPart_lengths
    simp only [html, String.length_append, h0, h1, h2, h3]
    omega

/-- C9 on a name with markup: "<b>x</b>" stands in the html character for character, between
the opening of the Nombre value cell and its closing tag. -/
theorem C9_html_raw_interpolation_witness :
    allFieldsNonEmpty ⟨"<b>x</b>", "a@x.com", "1", "x"⟩ ∧
    html ⟨"<b>x</b>", "a@x.com", "1", "x"⟩
      = templateHead ++ (rowOpen "Nombre" ++ "<b>x</b>" ++ "</td>") ++ templateRowBreak ++
          (rowOpen "Email" ++ "a@x.com" ++ "</td>") ++ templateRowBreak ++
          (rowOpen "PPS" ++ "1" ++ "</td>") ++ templateTail ∧
    (html ⟨"<b>x</b>", "a@x.com", "1", "x"⟩).length = 1666 + 8 + 7 + 1 :=
  ⟨by decide,
    (C9_html_raw_interpolation ⟨"<b>x</b>", "a@x.com", "1", "x"⟩ (by decide)).2.1,
    (C9_html_raw_interpolation ⟨"<b>x</b>", "a@x.com", "1", "x"⟩ (by decide)).2.2⟩

end SendExpenseReport
